import Mathlib

/-!
Shallow embedding of the grading pipeline in
`src/hud_controller/grading_runner.py` (class `GradingRunner`), together
with theorems checking the specification claims against it.

Modelling conventions:
- JUnit XML documents are modelled at the parsed level: a document is a
  list of `TestSuite` records (the direct `testsuite` children of the
  `testsuites` root), a suite carries the count attributes and its
  `testcase` children.  XML escaping and serialization round-trip and are
  not modelled.
- External processes (`git archive | tar`, `git apply`, `gotestsum`) are
  modelled by their observable result: an exit code plus captured output
  streams, supplied by an `Env` record describing one concrete run.
- Python exceptions are modelled with `Except String`; `subprocess.run`
  with `check=True` raising `CalledProcessError` on a non-zero exit is
  `subprocess_run true`.
- Wall-clock durations are opaque (`Diag.duration`): real time is not
  modelled, only the shape of the diagnostics mapping.
- Scores are rational numbers (`ℚ`); the Python floats occurring here
  (0.0 and 1.0, and the graduated formula on small integer counts) are
  exact in binary floating point, so ℚ is a faithful model.
-/

/-- One `testcase` element of a JUnit document: an optional `failure`
child, an optional `error` child, an optional `skipped` child, and the
captured output streams. -/
structure TestCase where
  name : String
  failure : Option String
  error : Option String
  skipped : Bool
  systemOut : String
  systemErr : String
deriving DecidableEq

/-- One `testsuite` element: `testsAttr = none` models an absent (or
empty, hence falsy in Python) `tests` attribute; the other three count
attributes default to 0 when absent, exactly as
`int(suite.get('failures', 0))` does in `_calculate_score`. -/
structure TestSuite where
  name : String
  testsAttr : Option Nat
  failuresAttr : Nat
  errorsAttr : Nat
  skippedAttr : Nat
  testcases : List TestCase
deriving DecidableEq

/-- The aggregate counters accumulated by `_calculate_score`. -/
structure Counts where
  tests : Nat
  failures : Nat
  errors : Nat
  skipped : Nat
deriving DecidableEq

def Counts.add (a b : Counts) : Counts :=
  ⟨a.tests + b.tests, a.failures + b.failures, a.errors + b.errors, a.skipped + b.skipped⟩

instance : Add Counts := ⟨Counts.add⟩

instance : Zero Counts := ⟨⟨0, 0, 0, 0⟩⟩

/-- Counters contributed by one suite, following the attribute-or-derived
fallback of `_calculate_score`: if the `tests` attribute is present the
attribute counts are used, otherwise the counts are derived from the
embedded `testcase` children. -/
def suiteCounts (s : TestSuite) : Counts :=
  match s.testsAttr with
  | some t => ⟨t, s.failuresAttr, s.errorsAttr, s.skippedAttr⟩
  | none =>
      ⟨s.testcases.length,
       (s.testcases.filter (fun tc => tc.failure.isSome)).length,
       (s.testcases.filter (fun tc => tc.error.isSome)).length,
       (s.testcases.filter (fun tc => tc.skipped)).length⟩

/-- Aggregate counters of a whole document (the loop over `suites`). -/
def docCounts : List TestSuite → Counts
  | [] => 0
  | s :: rest => suiteCounts s + docCounts rest

/-- A result document as seen by `_calculate_score`: either it parsed to
a list of suites, or `ET.fromstring` raised `ParseError`. -/
inductive JUnitXml where
  | parsed (suites : List TestSuite)
  | malformed
deriving DecidableEq

/-- `GradingRunner._calculate_score`: 0.0 when any failure or error was
counted, 0.0 when the document is malformed or holds no tests, 1.0 when
all tests passed. -/
def calculate_score : JUnitXml → ℚ
  | JUnitXml.malformed => 0
  | JUnitXml.parsed suites =>
      if 0 < (docCounts suites).failures ∨ 0 < (docCounts suites).errors then 0
      else if (docCounts suites).tests = 0 then 0
      else 1

/-- Merging result documents, as `_run_tests` does by concatenating the
collected `merged_xml_parts` under one `testsuites` root. -/
def aggregate (docs : List (List TestSuite)) : List TestSuite :=
  docs.flatten

/-- Code-point lexicographic order on character lists, the order Python
uses to compare strings in `sorted`. -/
def lexLe : List Char → List Char → Bool
  | [], _ => true
  | _ :: _, [] => false
  | a :: as, b :: bs =>
      if a.toNat < b.toNat then true
      else if b.toNat < a.toNat then false
      else lexLe as bs

/-- Python string comparison `a <= b` (code-point lexicographic). -/
def strLe (a b : String) : Prop := lexLe a.toList b.toList = true

instance : DecidableRel strLe :=
  fun a b => inferInstanceAs (Decidable (lexLe a.toList b.toList = true))

/-- Python `str.endswith`. -/
def strEndsWith (s suf : String) : Bool := suf.toList.isSuffixOf s.toList

/-- Python slicing `s[:n]`. -/
def strTake (s : String) (n : Nat) : String := ⟨s.toList.take n⟩

/-- Characters up to and including the last slash, `p[:p.rfind('/') + 1]`. -/
def upToLastSlash : List Char → List Char
  | [] => []
  | c :: cs =>
      if cs.contains '/' then c :: upToLastSlash cs
      else if c = '/' then ['/'] else []

/-- Python `str.rstrip('/')`. -/
def rstripSlashes (cs : List Char) : List Char :=
  (cs.reverse.dropWhile (fun c => c = '/')).reverse

/-- `os.path.dirname` for POSIX paths: the part before the last slash,
with trailing slashes stripped unless the head is all slashes. -/
def dirname (p : String) : String :=
  let head := upToLastSlash p.toList
  if head.all (fun c => c = '/') then ⟨head⟩ else ⟨rstripSlashes head⟩

/-- The package scope derived from one touched file in
`_get_target_packages`: `./<dir>` for a file in a subdirectory, `.` for a
file at the repository root. -/
def package_of_file (filepath : String) : String :=
  let d := dirname filepath
  if d = "" then "." else "./" ++ d

/-- `GradingRunner._get_target_packages`: the whole-suite scope `./...`
when no test files were supplied, otherwise the de-duplicated, sorted
scopes of the touched `.go` files plus `./test/...` when the repository
has a top-level `test` entry.  Python builds a `set` and returns
`sorted(list(...))`; this is modelled as `dedup` followed by a sort under
the code-point order `strLe`. -/
def get_target_packages (test_files : List String) (test_dir_present : Bool) : List String :=
  if test_files = [] then ["./..."]
  else
    let pkgs := (test_files.filter (fun f => strEndsWith f ".go")).map package_of_file
    let pkgs := pkgs ++ (if test_dir_present then ["./test/..."] else [])
    List.insertionSort strLe pkgs.dedup

/-- Result of one finished external process (`subprocess.CompletedProcess`). -/
structure CompletedProcess where
  returncode : Int
  stdout : String
  stderr : String
deriving DecidableEq

/-- `subprocess.run`: with `check=True` a non-zero exit raises
`CalledProcessError`, with `check=False` the result is returned as-is. -/
def subprocess_run (check : Bool) (result : CompletedProcess) : Except String CompletedProcess :=
  if check ∧ result.returncode ≠ 0 then
    Except.error ("CalledProcessError: exit status " ++ toString result.returncode)
  else Except.ok result

/-- `GradingRunner._reset_test_files`: skipped without a golden ref;
otherwise runs `git archive | tar` with `check=True` and swallows a
`CalledProcessError` with a bare `pass`, so it returns unit in every
case and reports nothing to its caller. -/
def reset_test_files (use_golden : Bool) (archive_result : CompletedProcess) : Unit :=
  if use_golden then
    match subprocess_run true archive_result with
    | Except.ok _ => ()
    | Except.error _ => ()
  else ()

/-- The patch invocation in `run_grading`:
`["git", "apply", "--allow-empty"]`. -/
def test_patch_cmd : List String := ["git", "apply", "--allow-empty"]

/-- The test-patch step of `run_grading`: when the patch file exists the
patch is piped to `git apply --allow-empty` with `check=False`, so the
exit status of `git apply` is never inspected. -/
def apply_test_patch (patch_exists : Bool) (git_apply_result : CompletedProcess) :
    Except String Unit :=
  if patch_exists then
    match subprocess_run false git_apply_result with
    | Except.ok _ => Except.ok ()
    | Except.error e => Except.error e
  else Except.ok ()

/-- Outcome of invoking `gotestsum` on one package scope: it either
completed (with an exit code, captured output, and the JUnit file it may
or may not have written) or hit the 60 second `subprocess.TimeoutExpired`. -/
inductive ScopeOutcome where
  | completed (result : CompletedProcess) (junit_file : Option (List TestSuite))
  | timedOut
deriving DecidableEq

/-- `GradingRunner._format_junit_xml`: a synthetic single-suite,
single-testcase failing document. -/
def format_junit_xml (test_name message stdout stderr : String) : TestSuite :=
  { name := test_name
    testsAttr := some 1
    failuresAttr := 1
    errorsAttr := 0
    skippedAttr := 0
    testcases := [{ name := "test", failure := some message, error := none, skipped := false,
                    systemOut := strTake stdout 5000, systemErr := strTake stderr 5000 }] }

/-- The synthetic suite appended by the `TimeoutExpired` handler in
`_run_tests`. -/
def timeout_suite (pkg : String) : TestSuite :=
  { name := pkg
    testsAttr := some 1
    failuresAttr := 1
    errorsAttr := 0
    skippedAttr := 0
    testcases := [{ name := "Timeout", failure := some "Test package timed out", error := none,
                    skipped := false, systemOut := "", systemErr := "" }] }

/-- The loop state of `_run_tests` (`merged_xml_parts`, `overall_success`,
`failure_reason`). -/
structure RunTestsState where
  merged_xml_parts : List TestSuite
  overall_success : Bool
  failure_reason : String
deriving DecidableEq

/-- Bool substring check, Python `needle in hay` for strings. -/
def listContainsSub (needle : List Char) : List Char → Bool
  | [] => needle.isEmpty
  | c :: cs => needle.isPrefixOf (c :: cs) || listContainsSub needle cs

def strContains (hay needle : String) : Bool := listContainsSub needle.toList hay.toList

/-- The package loop of `_run_tests`.  A completed invocation marks the
run failed on a non-zero exit (recording the failure reason) and appends
the suites of the JUnit file when that file exists; a
`subprocess.TimeoutExpired` marks the run failed, appends the synthetic
timeout suite and breaks out of the loop. -/
def runTestsLoop (outcome : String → ScopeOutcome) : List String → RunTestsState → RunTestsState
  | [], st => st
  | pkg :: rest, st =>
      match outcome pkg with
      | ScopeOutcome.completed result junit_file =>
          runTestsLoop outcome rest
            { merged_xml_parts :=
                st.merged_xml_parts ++ (match junit_file with
                                        | some suites => suites
                                        | none => [])
              overall_success := if result.returncode ≠ 0 then false else st.overall_success
              failure_reason :=
                if result.returncode ≠ 0 then
                  "Test failure in " ++ pkg ++ "\n" ++ strTake result.stdout 500
                else st.failure_reason }
      | ScopeOutcome.timedOut =>
          { merged_xml_parts := st.merged_xml_parts ++ [timeout_suite pkg]
            overall_success := false
            failure_reason := st.failure_reason }

/-- The final step of `_run_tests`: when the run failed and the recorded
`failure_reason` contains the substring `"Timeout"`, the whole merged
document is replaced by one synthetic `FatalError` document; otherwise
the merged parts are returned. -/
def finalize_run_tests (st : RunTestsState) : List TestSuite :=
  if !st.overall_success && strContains st.failure_reason "Timeout" then
    [format_junit_xml "FatalError" st.failure_reason "" ""]
  else st.merged_xml_parts

/-- `GradingRunner._run_tests` (the returned document; the measured
duration is not modelled). -/
def run_tests (outcome : String → ScopeOutcome) (target_packages : List String) :
    List TestSuite :=
  finalize_run_tests (runTestsLoop outcome target_packages ⟨[], true, ""⟩)

/-- The documents produced by the scopes of a run, in scope order: the
parsed content of each JUnit file a completed invocation wrote. -/
def collected_docs (outcome : String → ScopeOutcome) : List String → List TestSuite
  | [] => []
  | pkg :: rest =>
      (match outcome pkg with
       | ScopeOutcome.completed _ (some suites) => suites
       | ScopeOutcome.completed _ none => []
       | ScopeOutcome.timedOut => []) ++ collected_docs outcome rest

/-- A diagnostics value: the serialized merged document, an opaque
wall-clock duration, or an error description. -/
inductive Diag where
  | junitDoc (suites : List TestSuite)
  | duration
  | errorMsg (msg : String)
deriving DecidableEq

/-- The environment of one grading run: every fact about the outside
world that `run_grading` observes.  `unexpected` models any exception
raised inside the `try` block by effects not otherwise modelled (an I/O
failure reading the patch file, a `ValueError` from a malformed count
attribute, and so on); `none` means no such exception occurs. -/
structure Env where
  use_golden : Bool
  archive_result : CompletedProcess
  test_patch_exists : Bool
  git_apply_result : CompletedProcess
  test_files : List String
  test_dir_present : Bool
  scope_outcome : String → ScopeOutcome
  unexpected : Option String

/-- The body of the `try` block of `run_grading`: reset the test files,
apply the test patch, run the tests.  An `Except.error` is a Python
exception propagating to the `except` clause. -/
def grading_body (env : Env) : Except String (List TestSuite) :=
  match env.unexpected with
  | some msg => Except.error msg
  | none =>
      let _ := reset_test_files env.use_golden env.archive_result
      match apply_test_patch env.test_patch_exists env.git_apply_result with
      | Except.error e => Except.error e
      | Except.ok _ =>
          Except.ok (run_tests env.scope_outcome
            (get_target_packages env.test_files env.test_dir_present))

/-- `GradingRunner.run_grading`: scores the merged document and returns
`(score, diagnostics)`; any exception from the body is caught by the
top-level `except Exception` and converted to score 0.0 with an
`error` diagnostic. -/
def run_grading (env : Env) : ℚ × List (String × Diag) :=
  match grading_body env with
  | Except.ok junit_xml =>
      (calculate_score (JUnitXml.parsed junit_xml),
       [("junit", Diag.junitDoc junit_xml), ("test_duration", Diag.duration),
        ("total_duration", Diag.duration)])
  | Except.error e => (0, [("error", Diag.errorMsg e)])

/-- Modelled from the spec: rounding to 4 decimal digits (spec 4.7); the
graduated policy itself is absent from `src/`, so the rounding is the
standard round of the scaled value. -/
def round4 (q : ℚ) : ℚ := (round (q * 10000) : ℚ) / 10000

/-- Modelled from the spec: the graduated scoring policy of spec 4.7,
which belongs to the second grading variant of the repository (the
`AgentPatchGrader` referenced by the generators), not present under
`src/`.  If no tests were observed the score is 0.1, otherwise
`0.1 + 0.9 * passed / total`, rounded to 4 decimal digits. -/
def graduated_score (suites : List TestSuite) : ℚ :=
  if (docCounts suites).tests = 0 then 1 / 10
  else
    round4 (1 / 10 + 9 / 10 *
      ((((docCounts suites).tests : ℚ) - ((docCounts suites).failures : ℚ)
         - ((docCounts suites).errors : ℚ)) / ((docCounts suites).tests : ℚ)))

/-! Concrete inputs used by witnesses and counterexamples. -/

/-- A suite whose count attributes read 10 tests, 3 failures. -/
def exampleSuiteTen : TestSuite := ⟨"s", some 10, 3, 0, 0, []⟩

/-- A fully passing suite (2 tests). -/
def passingSuite : TestSuite := ⟨"pkg", some 2, 0, 0, 0, []⟩

/-- A passing suite collected before a timeout (3 tests). -/
def suiteA : TestSuite := ⟨"pkg_a", some 3, 0, 0, 0, []⟩

/-- A suite of a scope that would have run after the timeout. -/
def suiteC : TestSuite := ⟨"pkg_c", some 2, 0, 0, 0, []⟩

/-- A suite recording an ordinary test failure (4 tests, 2 failures). -/
def failingSuiteA : TestSuite := ⟨"pkg_a", some 4, 2, 0, 0, []⟩

/-- A fully passing suite of a second scope (5 tests). -/
def suiteB : TestSuite := ⟨"pkg_b", some 5, 0, 0, 0, []⟩

/-- An environment whose body raises an unanticipated exception. -/
def envBoom : Env :=
  { use_golden := false
    archive_result := ⟨0, "", ""⟩
    test_patch_exists := false
    git_apply_result := ⟨0, "", ""⟩
    test_files := []
    test_dir_present := false
    scope_outcome := fun _ => ScopeOutcome.timedOut
    unexpected := some "boom" }

/-- An otherwise-normal run in which the anti-cheat `git archive | tar`
restoration exits non-zero. -/
def envResetFails : Env :=
  { use_golden := true
    archive_result := ⟨1, "", "fatal: not a valid ref"⟩
    test_patch_exists := false
    git_apply_result := ⟨0, "", ""⟩
    test_files := []
    test_dir_present := false
    scope_outcome := fun _ => ScopeOutcome.completed ⟨0, "", ""⟩ (some [passingSuite])
    unexpected := none }

/-- A run whose supplied file set has no `.go` file, against a
repository without a top-level `test` entry. -/
def envNoGoFiles : Env :=
  { use_golden := false
    archive_result := ⟨0, "", ""⟩
    test_patch_exists := true
    git_apply_result := ⟨0, "", ""⟩
    test_files := ["docs/README.md"]
    test_dir_present := false
    scope_outcome := fun _ => ScopeOutcome.completed ⟨0, "", ""⟩ none
    unexpected := none }

/-- Scope outcomes for a run where the second of three scopes hits
`subprocess.TimeoutExpired`. -/
def timeoutRunOutcomes : String → ScopeOutcome := fun pkg =>
  if pkg = "./a" then ScopeOutcome.completed ⟨0, "ok", ""⟩ (some [suiteA])
  else if pkg = "./c" then ScopeOutcome.completed ⟨0, "ok", ""⟩ (some [suiteC])
  else ScopeOutcome.timedOut

/-- Scope outcomes for a run where the first scope fails ordinarily
(exit 1) while printing the name of a failed test that contains the
substring `Timeout`, and the second scope passes. -/
def stdoutTimeoutOutcomes : String → ScopeOutcome := fun pkg =>
  if pkg = "./a" then
    ScopeOutcome.completed ⟨1, "--- FAIL: TestTimeout (0.50s)", ""⟩ (some [failingSuiteA])
  else ScopeOutcome.completed ⟨0, "ok", ""⟩ (some [suiteB])

/-- Scope outcomes for a run where the first scope fails ordinarily and
the second passes, with no mention of a timeout anywhere. -/
def mixedOutcomes : String → ScopeOutcome := fun pkg =>
  if pkg = "./a" then ScopeOutcome.completed ⟨1, "build broke", ""⟩ (some [failingSuiteA])
  else ScopeOutcome.completed ⟨0, "ok", ""⟩ (some [suiteB])

/-- A `git apply` invocation that failed with a conflict. -/
def conflictProcess : CompletedProcess := ⟨1, "", "error: patch failed: main.go:10"⟩

/-! Helper lemmas shared by the claim theorems. -/

theorem Counts.add_def (a b : Counts) :
    a + b = ⟨a.tests + b.tests, a.failures + b.failures,
             a.errors + b.errors, a.skipped + b.skipped⟩ := rfl

theorem Counts.zero_def : (0 : Counts) = ⟨0, 0, 0, 0⟩ := rfl

theorem docCounts_append (xs ys : List TestSuite) :
    docCounts (xs ++ ys) = docCounts xs + docCounts ys := by
  induction xs with
  | nil => simp [docCounts, Counts.add_def, Counts.zero_def]
  | cons s rest ih => simp [docCounts, ih, Counts.add_def, Nat.add_assoc]

theorem lexLe_total (as bs : List Char) : lexLe as bs = true ∨ lexLe bs as = true := by
  induction as generalizing bs with
  | nil => left; rfl
  | cons a as ih =>
      cases bs with
      | nil => right; rfl
      | cons b bs =>
          by_cases hab : a.toNat < b.toNat
          · left; simp [lexLe, hab]
          · by_cases hba : b.toNat < a.toNat
            · right; simp [lexLe, hba]
            · rcases ih bs with h | h
              · left; simp [lexLe, hab, hba, h]
              · right; simp [lexLe, hab, hba, h]

theorem lexLe_trans : ∀ as bs cs : List Char,
    lexLe as bs = true → lexLe bs cs = true → lexLe as cs = true
  | [], _, _, _, _ => rfl
  | _ :: _, [], _, h1, _ => by simp [lexLe] at h1
  | _ :: _, _ :: _, [], _, h2 => by simp [lexLe] at h2
  | a :: as, b :: bs, c :: cs, h1, h2 => by
      simp only [lexLe] at h1 h2 ⊢
      split_ifs at h1 h2 ⊢ <;>
        first
        | rfl
        | exact absurd h1 Bool.false_ne_true
        | exact absurd h2 Bool.false_ne_true
        | omega
        | exact lexLe_trans as bs cs h1 h2

theorem apply_test_patch_eq_ok (patch_exists : Bool) (r : CompletedProcess) :
    apply_test_patch patch_exists r = Except.ok () := by
  cases patch_exists <;> simp [apply_test_patch, subprocess_run]

theorem runTestsLoop_parts (outcome : String → ScopeOutcome) (pkgs : List String)
    (h : ∀ p ∈ pkgs, outcome p ≠ ScopeOutcome.timedOut) (st : RunTestsState) :
    (runTestsLoop outcome pkgs st).merged_xml_parts
      = st.merged_xml_parts ++ collected_docs outcome pkgs := by
  induction pkgs generalizing st with
  | nil => simp [runTestsLoop, collected_docs]
  | cons pkg rest ih =>
      have hrest : ∀ p ∈ rest, outcome p ≠ ScopeOutcome.timedOut :=
        fun p hp => h p (by simp [hp])
      cases houtcome : outcome pkg with
      | timedOut => exact absurd houtcome (h pkg (by simp))
      | completed result junit_file =>
          simp only [runTestsLoop, houtcome]
          rw [ih hrest]
          cases junit_file <;> simp [collected_docs, houtcome]

/-! Claim theorems. -/

/-- C1: `run_grading` always returns a `(score, diagnostics)` pair; when
the body of the run raises, the exception is converted — never
propagated — into score 0.0 with an `error` diagnostic carrying the
description, and when the body completes, the score and the serialized
document are returned. -/
theorem run_grading_total_on_failure (env : Env) :
    (∀ e, grading_body env = Except.error e →
        run_grading env = (0, [("error", Diag.errorMsg e)]) ∧
        List.lookup "error" (run_grading env).2 = some (Diag.errorMsg e)) ∧
    (∀ suites, grading_body env = Except.ok suites →
        run_grading env = (calculate_score (JUnitXml.parsed suites),
          [("junit", Diag.junitDoc suites), ("test_duration", Diag.duration),
           ("total_duration", Diag.duration)])) := by
  constructor
  · intro e h
    constructor <;> simp [run_grading, h, List.lookup]
  · intro suites h
    simp [run_grading, h]

theorem run_grading_total_on_failure_witness :
    run_grading envBoom = (0, [("error", Diag.errorMsg "boom")]) ∧
    List.lookup "error" (run_grading envBoom).2 = some (Diag.errorMsg "boom") :=
  (run_grading_total_on_failure envBoom).1 "boom" rfl

/-- C2: the binary policy of `_calculate_score` scores a parsed document
1.0 exactly when it counted no failures, no errors, and at least one
test; otherwise 0.0. -/
theorem calculate_score_binary_policy (suites : List TestSuite) :
    calculate_score (JUnitXml.parsed suites) =
      if (docCounts suites).failures = 0 ∧ (docCounts suites).errors = 0
          ∧ 0 < (docCounts suites).tests
      then 1 else 0 := by
  simp only [calculate_score]
  split_ifs <;> first | rfl | omega

/-- C8: merging result documents is count-preserving and associative:
the counts of the merged document are the sums of the input counts, and
merging `[A, B]` and then the result with `C` equals merging
`[A, B, C]` directly. -/
theorem aggregation_count_preserving_and_associative (A B C : List TestSuite) :
    docCounts (aggregate [A, B, C]) = docCounts A + docCounts B + docCounts C ∧
    aggregate [aggregate [A, B], C] = aggregate [A, B, C] := by
  constructor
  · simp [aggregate, docCounts_append, Counts.add_def, Nat.add_assoc]
  · simp [aggregate]

/-- C9 counterexample: a `git apply` that exits 1 (a conflict) raises
nothing from the test-patch step — `apply_test_patch` returns `ok` even
though the same process under `check=True` would have raised — so the
claim that a conflicting supplementary patch raises `PatchApplyError`
is false on this code. -/
theorem failed_patch_raises_no_error :
    apply_test_patch true conflictProcess = Except.ok () ∧
    subprocess_run true conflictProcess ≠ Except.ok conflictProcess := by
  constructor
  · rfl
  · intro h
    have herr : subprocess_run true conflictProcess =
        Except.error ("CalledProcessError: exit status " ++ toString (1 : Int)) := rfl
    rw [herr] at h
    exact Except.noConfusion h

/-- C9 amended: applying the test patch never fails, whatever the exit
status of `git apply` — an empty patch succeeds because the command
passes `--allow-empty`, and a conflicting patch is silently ignored
because the invocation uses `check=False`. -/
theorem apply_test_patch_never_fails (patch_exists : Bool) (r : CompletedProcess) :
    apply_test_patch patch_exists r = Except.ok () ∧ "--allow-empty" ∈ test_patch_cmd :=
  ⟨apply_test_patch_eq_ok patch_exists r, by simp [test_patch_cmd]⟩

/-- C4 (evaluating the code at the failing input): when the second of
three scopes hits `subprocess.TimeoutExpired`, the loop does stop (the
third scope is never attempted and its document is absent), but the
previously collected document of the first scope is NOT discarded: the
returned result blends it with the synthetic timeout suite, because
`failure_reason` is only assigned on a non-zero exit and never by the
timeout handler, so the `"Timeout" in failure_reason` replacement never
fires on a real timeout. -/
theorem run_tests_timeout_keeps_prior_documents :
    run_tests timeoutRunOutcomes ["./a", "./b", "./c"] = [suiteA, timeout_suite "./b"] ∧
    run_tests timeoutRunOutcomes ["./a", "./b", "./c"] ≠ [timeout_suite "./b"] := by
  constructor
  · rfl
  · decide

/-- C5 counterexample: in a run whose anti-cheat restoration exits
non-zero, `run_grading` returns the ordinary success diagnostics —
`junit` and the two durations only — with no `error` entry and no trace
of the restoration failure, so the claim that the failure is surfaced in
the diagnostics mapping is false on this code. -/
theorem reset_failure_absent_from_diagnostics :
    run_grading envResetFails =
      (1, [("junit", Diag.junitDoc [passingSuite]), ("test_duration", Diag.duration),
           ("total_duration", Diag.duration)]) ∧
    List.lookup "error" (run_grading envResetFails).2 = none := by
  constructor <;> rfl

/-- C5 amended: a failed restoration is non-fatal — the
`CalledProcessError` is swallowed by a bare `pass` — and it is silent:
the result of `run_grading` is identical whatever the exit status of the
`git archive | tar` restoration, so no diagnostic can depend on it. -/
theorem reset_failure_nonfatal_and_silent (env : Env) (p q : CompletedProcess) :
    run_grading { env with archive_result := p }
      = run_grading { env with archive_result := q } := rfl

/-- C6 counterexample: a scope that fails ordinarily (exit 1, no
timeout) while its captured stdout happens to contain the substring
`Timeout` makes the final check replace ALL collected documents — its
own and the passing second scope's — with one synthetic `FatalError`
document, so the claim that every scope's document is retained for
aggregation is false on this code. -/
theorem ordinary_failure_can_discard_documents :
    run_tests stdoutTimeoutOutcomes ["./a", "./b"] =
      [format_junit_xml "FatalError"
        ("Test failure in ./a\n--- FAIL: TestTimeout (0.50s)") "" ""] ∧
    suiteB ∉ run_tests stdoutTimeoutOutcomes ["./a", "./b"] := by
  constructor
  · rfl
  · decide

/-- C6 amended: provided no scope times out and the recorded failure
reason does not contain the substring `Timeout`, a non-zero exit of one
scope aborts nothing: every scope is attempted and the returned document
is exactly the concatenation, in scope order, of every document the
scopes produced, whether they passed or failed. -/
theorem scope_failure_does_not_abort (outcome : String → ScopeOutcome)
    (target_packages : List String)
    (h1 : ∀ p ∈ target_packages, outcome p ≠ ScopeOutcome.timedOut)
    (h2 : strContains (runTestsLoop outcome target_packages ⟨[], true, ""⟩).failure_reason
            "Timeout" = false) :
    run_tests outcome target_packages = collected_docs outcome target_packages := by
  have hparts := runTestsLoop_parts outcome target_packages h1 ⟨[], true, ""⟩
  simp only [run_tests, finalize_run_tests, h2, Bool.and_false, if_false]
  simpa using hparts

theorem scope_failure_does_not_abort_witness :
    run_tests mixedOutcomes ["./a", "./b"] = collected_docs mixedOutcomes ["./a", "./b"] :=
  scope_failure_does_not_abort mixedOutcomes ["./a", "./b"] (by decide) (by decide)

/-- C7: with a non-empty file set, the derived scopes are exactly the
per-directory scopes of the touched `.go` files plus `./test/...` when a
top-level test directory exists, sorted lexicographically with no
duplicates; with an empty file set the single whole-suite scope `./...`
is used. -/
theorem get_target_packages_spec (test_files : List String) (test_dir_present : Bool)
    (hne : test_files ≠ []) :
    List.Sorted strLe (get_target_packages test_files test_dir_present) ∧
    (get_target_packages test_files test_dir_present).Nodup ∧
    (∀ p, p ∈ get_target_packages test_files test_dir_present ↔
        ((∃ f ∈ test_files, strEndsWith f ".go" = true ∧ p = package_of_file f) ∨
         (test_dir_present = true ∧ p = "./test/..."))) ∧
    get_target_packages [] test_dir_present = ["./..."] := by
  haveI : IsTotal String strLe := ⟨fun a b => lexLe_total a.toList b.toList⟩
  haveI : IsTrans String strLe := ⟨fun a b c => lexLe_trans a.toList b.toList c.toList⟩
  have hunfold : get_target_packages test_files test_dir_present =
      List.insertionSort strLe
        (((test_files.filter (fun f => strEndsWith f ".go")).map package_of_file
          ++ (if test_dir_present then ["./test/..."] else [])).dedup) := by
    simp only [get_target_packages, if_neg hne]
  refine ⟨?_, ?_, ?_, rfl⟩
  · rw [hunfold]; exact List.sorted_insertionSort strLe _
  · rw [hunfold]
    exact ((List.perm_insertionSort strLe _).nodup_iff).mpr (List.nodup_dedup _)
  · intro p
    rw [hunfold, (List.perm_insertionSort strLe _).mem_iff, List.mem_dedup,
        List.mem_append, List.mem_map]
    constructor
    · rintro (⟨f, hf, rfl⟩ | hmem)
      · rw [List.mem_filter] at hf
        exact Or.inl ⟨f, hf.1, hf.2, rfl⟩
      · cases htd : test_dir_present
        · rw [htd] at hmem; simp at hmem
        · rw [htd] at hmem
          simp only [if_true, List.mem_singleton] at hmem
          exact Or.inr ⟨rfl, hmem⟩
    · rintro (⟨f, hf, hgo, rfl⟩ | ⟨htd, rfl⟩)
      · exact Or.inl ⟨f, List.mem_filter.mpr ⟨hf, hgo⟩, rfl⟩
      · right; rw [htd]; simp

theorem get_target_packages_spec_witness :
    List.Sorted strLe (get_target_packages ["pkg/a/x.go"] true) ∧
    ("./pkg/a" ∈ get_target_packages ["pkg/a/x.go"] true ↔
      ((∃ f ∈ ["pkg/a/x.go"], strEndsWith f ".go" = true ∧ "./pkg/a" = package_of_file f) ∨
       (true = true ∧ "./pkg/a" = "./test/..."))) := by
  have h := get_target_packages_spec ["pkg/a/x.go"] true (by decide)
  exact ⟨h.1, h.2.2.1 "./pkg/a"⟩

/-- C10: a non-empty file set with no `.go` path, against a repository
without a top-level test directory, derives an empty scope list; the run
then executes no test invocation, merges an empty document, and
`run_grading` returns score 0.0 with the ordinary diagnostics keys and
no indication that zero scopes were executed. -/
theorem empty_scope_list_scores_zero_silently (env : Env)
    (h1 : env.test_files ≠ [])
    (h2 : ∀ f ∈ env.test_files, strEndsWith f ".go" = false)
    (h3 : env.test_dir_present = false)
    (h4 : env.unexpected = none) :
    get_target_packages env.test_files env.test_dir_present = [] ∧
    run_grading env = (0, [("junit", Diag.junitDoc []), ("test_duration", Diag.duration),
                           ("total_duration", Diag.duration)]) := by
  have hfilter : env.test_files.filter (fun f => strEndsWith f ".go") = [] := by
    apply List.filter_eq_nil_iff.mpr
    intro f hf
    simp [h2 f hf]
  have hpkgs : get_target_packages env.test_files env.test_dir_present = [] := by
    simp [get_target_packages, if_neg h1, h3, hfilter, List.insertionSort]
  refine ⟨hpkgs, ?_⟩
  have hbody : grading_body env = Except.ok [] := by
    simp only [grading_body, h4, apply_test_patch_eq_ok, hpkgs]
    rfl
  simp [run_grading, hbody, calculate_score, docCounts, Counts.zero_def]

theorem empty_scope_list_scores_zero_silently_witness :
    get_target_packages envNoGoFiles.test_files envNoGoFiles.test_dir_present = [] ∧
    run_grading envNoGoFiles =
      (0, [("junit", Diag.junitDoc []), ("test_duration", Diag.duration),
           ("total_duration", Diag.duration)]) :=
  empty_scope_list_scores_zero_silently envNoGoFiles (by decide) (by decide) rfl rfl

theorem round4_of_mul_eq (q : ℚ) (n : ℤ) (h : q * 10000 = (n : ℚ)) :
    round4 q = (n : ℚ) / 10000 := by
  rw [round4, h, round_intCast]

/-- C3 (modelled from the spec; the graduated policy is not under
`src/`): over any aggregated document, the graduated score is 0.1 when
no tests were counted and `round4 (0.1 + 0.9 * (N - F - E) / N)`
otherwise; at counts `N = 10, F = 3, E = 0` the score is 0.73. -/
theorem graduated_score_spec (suites : List TestSuite) :
    ((docCounts suites).tests = 0 → graduated_score suites = 1 / 10) ∧
    (0 < (docCounts suites).tests →
      graduated_score suites =
        round4 (1 / 10 + 9 / 10 *
          ((((docCounts suites).tests : ℚ) - ((docCounts suites).failures : ℚ)
             - ((docCounts suites).errors : ℚ)) / ((docCounts suites).tests : ℚ)))) ∧
    graduated_score [exampleSuiteTen] = 73 / 100 := by
  refine ⟨fun h => by simp [graduated_score, h], fun h => ?_, ?_⟩
  · rw [graduated_score, if_neg (Nat.pos_iff_ne_zero.mp h)]
  · have hc : docCounts [exampleSuiteTen] = ⟨10, 3, 0, 0⟩ := rfl
    have hne : (docCounts [exampleSuiteTen]).tests ≠ 0 := by rw [hc]; decide
    rw [graduated_score, if_neg hne, hc]
    rw [round4_of_mul_eq _ 7300 (by push_cast; norm_num)]
    norm_num

theorem graduated_score_spec_witness :
    graduated_score [exampleSuiteTen] =
      round4 (1 / 10 + 9 / 10 *
        ((((docCounts [exampleSuiteTen]).tests : ℚ) - ((docCounts [exampleSuiteTen]).failures : ℚ)
           - ((docCounts [exampleSuiteTen]).errors : ℚ)) / ((docCounts [exampleSuiteTen]).tests : ℚ))) :=
  (graduated_score_spec [exampleSuiteTen]).2.1 (by decide)
